import Mathlib

/-!
Verification of the Titanic passenger API and rule-based survival predictor.

The definitions below are a shallow embedding of the JavaScript sources:

* `src/TITANIC/prediction-server.js` — the rule-based scoring function
  `predictSurvival`, the logistic transform, and the `/titanic/predict`
  endpoint with its required-field validation loop.
* `src/TITANIC/routers/passengers.js` — the passenger router: pagination
  over the in-memory list, lookup by id, filtering by class / survival /
  name substring, and the statistics summary.

JSON numbers are modelled as rationals (`ℚ`), the accumulated score as an
integer (`ℤ`), strings as Lean `String`s, and absent-or-null JSON fields as
`Option`. JavaScript `Array.prototype.slice` is reproduced with its
ECMAScript clamping rules, including the from-the-end interpretation of
negative indices, since the pagination endpoint passes client-controlled
numbers straight into `slice`.
-/

namespace Titanic

/-- A scoring input: the seven passenger attributes read by `predictSurvival`
(`prediction-server.js`). Numeric JSON values are rationals, `sex` and
`embarked` are strings. -/
structure PassengerData where
  pclass : ℚ
  sex : String
  age : ℚ
  sibsp : ℚ
  parch : ℚ
  fare : ℚ
  embarked : String

/-- The integer score accumulated by `predictSurvival`
(`prediction-server.js` lines 33–59). The source starts `score` at 0 and
performs a sequence of guarded increments and decrements, the only mutations
of `score`; each summand below is one of those guarded `score += d` /
`score -= d` clauses, in source order. The two sex conditionals, the three
class conditionals and the two family-size conditionals are independent
`if`s in the source, and are kept independent here; the age and fare ladders
are `else if` chains in the source and are kept as chains. -/
def predictScore (p : PassengerData) : ℤ :=
  let familySize := p.sibsp + p.parch
  (if p.sex = "female" then 3 else 0)
    + (if p.sex = "male" then -1 else 0)
    + (if p.pclass = 1 then 2 else 0)
    + (if p.pclass = 2 then 1 else 0)
    + (if p.pclass = 3 then -1 else 0)
    + (if p.age ≤ 12 then 2
       else if p.age ≤ 25 then 1
       else if p.age > 60 then -1
       else 0)
    + (if familySize = 1 ∨ familySize = 2 then 1 else 0)
    + (if familySize > 4 then -1 else 0)
    + (if p.fare > 50 then 2
       else if p.fare > 20 then 1
       else 0)
    + (if p.embarked = "C" then 1 else 0)

/-- The pseudo-probability computed at `prediction-server.js` line 62:
`1 / (1 + Math.exp(-score * 0.3))`. -/
noncomputable def probability (p : PassengerData) : ℝ :=
  1 / (1 + Real.exp (-(predictScore p : ℝ) * 0.3))

/-- The boolean outcome at `prediction-server.js` line 65:
`probability > 0.5`. -/
def survived (p : PassengerData) : Prop :=
  probability p > 0.5

/-- Sex adjustment as the specification states it: `female` gives `+3`,
`male` gives `-1`, any other value gives `0`. -/
def sexAdj (sex : String) : ℤ :=
  if sex = "female" then 3 else if sex = "male" then -1 else 0

/-- Class adjustment as the specification states it: class 1 gives `+2`,
class 2 gives `+1`, class 3 gives `-1`, anything else gives `0`. -/
def classAdj (pclass : ℚ) : ℤ :=
  if pclass = 1 then 2 else if pclass = 2 then 1 else if pclass = 3 then -1 else 0

/-- Age adjustment as the specification states it: `≤12` gives `+2`, else
`≤25` gives `+1`, else `>60` gives `-1`, else `0`. -/
def ageAdj (age : ℚ) : ℤ :=
  if age ≤ 12 then 2 else if age ≤ 25 then 1 else if age > 60 then -1 else 0

/-- Family-size adjustment as the specification states it: family size
exactly 1 or 2 gives `+1`, family size `>4` gives `-1`, otherwise `0`. -/
def familyAdj (familySize : ℚ) : ℤ :=
  if familySize = 1 ∨ familySize = 2 then 1 else if familySize > 4 then -1 else 0

/-- Fare adjustment as the specification states it: `>50` gives `+2`, else
`>20` gives `+1`, else `0`. -/
def fareAdj (fare : ℚ) : ℤ :=
  if fare > 50 then 2 else if fare > 20 then 1 else 0

/-- Embarkation-port adjustment as the specification states it: port `C`
gives `+1`, any other port gives `0`. -/
def portAdj (embarked : String) : ℤ :=
  if embarked = "C" then 1 else 0

/-- The fixture input from the specification:
`{pclass:1, sex:"female", age:29, sibsp:0, parch:0, fare:211.34, embarked:"S"}`. -/
def fixtureInput : PassengerData :=
  { pclass := 1, sex := "female", age := 29, sibsp := 0, parch := 0,
    fare := 211.34, embarked := "S" }

lemma sex_chunk (s : String) :
    ((if s = "female" then (3:ℤ) else 0) + if s = "male" then -1 else 0) =
      sexAdj s := by
  unfold sexAdj
  by_cases h1 : s = "female"
  · subst h1; decide
  · by_cases h2 : s = "male"
    · subst h2; decide
    · simp [h1, h2]

lemma class_chunk (k : ℤ) (c : ℚ) :
    (((k + if c = 1 then (2:ℤ) else 0) + if c = 2 then 1 else 0) +
        if c = 3 then -1 else 0) = k + classAdj c := by
  unfold classAdj
  split_ifs <;> first | omega | (exfalso; linarith)

lemma fam_chunk (k : ℤ) (f : ℚ) :
    ((k + if f = 1 ∨ f = 2 then (1:ℤ) else 0) + if f > 4 then -1 else 0) =
      k + familyAdj f := by
  unfold familyAdj
  split_ifs <;>
    first
      | omega
      | (exfalso; rcases ‹_ ∨ _› with h | h <;> linarith)

lemma predictScore_eq_sum (p : PassengerData) :
    predictScore p =
      sexAdj p.sex + classAdj p.pclass + ageAdj p.age +
        familyAdj (p.sibsp + p.parch) + fareAdj p.fare + portAdj p.embarked := by
  rcases p with ⟨pc, s, ag, sb, pr, fr, em⟩
  simp only [predictScore]
  rw [sex_chunk, class_chunk, fam_chunk]
  have hage :
      (if ag ≤ 12 then (2:ℤ) else if ag ≤ 25 then 1 else if ag > 60 then -1
        else 0) = ageAdj ag := rfl
  have hfare :
      (if fr > 50 then (2:ℤ) else if fr > 20 then 1 else 0) = fareAdj fr := rfl
  have hport : (if em = "C" then (1:ℤ) else 0) = portAdj em := rfl
  rw [hage, hfare, hport]

lemma sexAdj_bounds (s : String) : -1 ≤ sexAdj s ∧ sexAdj s ≤ 3 := by
  unfold sexAdj; split_ifs <;> omega

lemma classAdj_bounds (c : ℚ) : -1 ≤ classAdj c ∧ classAdj c ≤ 2 := by
  unfold classAdj; split_ifs <;> omega

lemma ageAdj_bounds (a : ℚ) : -1 ≤ ageAdj a ∧ ageAdj a ≤ 2 := by
  unfold ageAdj; split_ifs <;> omega

lemma familyAdj_bounds (f : ℚ) : -1 ≤ familyAdj f ∧ familyAdj f ≤ 1 := by
  unfold familyAdj; split_ifs <;> omega

lemma fareAdj_bounds (f : ℚ) : 0 ≤ fareAdj f ∧ fareAdj f ≤ 2 := by
  unfold fareAdj; split_ifs <;> omega

lemma portAdj_bounds (e : String) : 0 ≤ portAdj e ∧ portAdj e ≤ 1 := by
  unfold portAdj; split_ifs <;> omega

/-- C1. For every scoring input with all seven fields, the heuristic score of
`predictSurvival` equals the sum, starting from 0, of: the sex adjustment
(female +3, male −1, other 0), the class adjustment (1 ↦ +2, 2 ↦ +1, 3 ↦ −1),
the age adjustment (≤12 ↦ +2, else ≤25 ↦ +1, else >60 ↦ −1, else 0), the
family-size adjustment on sibsp+parch (=1 or =2 ↦ +1, >4 ↦ −1, else 0), the
fare adjustment (>50 ↦ +2, else >20 ↦ +1, else 0), and the port adjustment
(C ↦ +1, other 0). -/
theorem score_eq_sum_of_adjustments (p : PassengerData) :
    predictScore p =
      sexAdj p.sex + classAdj p.pclass + ageAdj p.age +
        familyAdj (p.sibsp + p.parch) + fareAdj p.fare + portAdj p.embarked :=
  predictScore_eq_sum p

/-- C10. For every scoring input the integer score lies between −4 and 11
inclusive, and both bounds are attained: −4 by a male in class 3, aged over
60, with family size over 4, fare ≤ 20 and a port other than C; 11 by a
female in class 1, aged ≤ 12, with family size 1, fare > 50 and port C. -/
theorem score_range (p : PassengerData) :
    (-4 ≤ predictScore p ∧ predictScore p ≤ 11) ∧
      predictScore
          { pclass := 3, sex := "male", age := 61, sibsp := 3, parch := 2,
            fare := 10, embarked := "S" } = -4 ∧
      predictScore
          { pclass := 1, sex := "female", age := 10, sibsp := 1, parch := 0,
            fare := 60, embarked := "C" } = 11 := by
  refine ⟨?_, by norm_num [predictScore] <;> decide, by norm_num [predictScore] <;> decide⟩
  have h := predictScore_eq_sum p
  have h1 := sexAdj_bounds p.sex
  have h2 := classAdj_bounds p.pclass
  have h3 := ageAdj_bounds p.age
  have h4 := familyAdj_bounds (p.sibsp + p.parch)
  have h5 := fareAdj_bounds p.fare
  have h6 := portAdj_bounds p.embarked
  omega

/-- A scoring input whose accumulated score is 0: male (−1), class 2 (+1),
age 30 (0), no family (0), fare 10 (0), port S (0). -/
def zeroInput : PassengerData :=
  { pclass := 2, sex := "male", age := 30, sibsp := 0, parch := 0,
    fare := 10, embarked := "S" }

lemma exp_pt7_lb : (24162857/12000000 : ℝ) ≤ Real.exp 0.7 := by
  have h := Real.sum_le_exp_of_nonneg (x := (0.7:ℝ)) (by norm_num) 6
  refine le_trans (le_of_eq ?_) h
  rw [Finset.sum_range_succ, Finset.sum_range_succ, Finset.sum_range_succ,
    Finset.sum_range_succ, Finset.sum_range_succ, Finset.sum_range_succ,
    Finset.sum_range_zero]
  norm_num [Nat.factorial]

lemma exp_pt7_ub :
    Real.exp 0.7 ≤ (24162857/12000000 : ℝ) + 823543/4320000000 := by
  have h := Real.exp_bound' (x := (0.7:ℝ)) (n := 6) (by norm_num) (by norm_num)
    (by norm_num)
  refine le_trans h (le_of_eq ?_)
  rw [Finset.sum_range_succ, Finset.sum_range_succ, Finset.sum_range_succ,
    Finset.sum_range_succ, Finset.sum_range_succ, Finset.sum_range_succ,
    Finset.sum_range_zero]
  norm_num [Nat.factorial]

lemma exp_21_eq_pow : Real.exp 2.1 = Real.exp 0.7 ^ 3 := by
  rw [show (2.1:ℝ) = (3:ℕ) * 0.7 by norm_num, Real.exp_nat_mul]

lemma exp_21_lb : (8.16 : ℝ) ≤ Real.exp 2.1 := by
  rw [exp_21_eq_pow]
  have h := pow_le_pow_left₀ (by norm_num : (0:ℝ) ≤ 24162857/12000000) exp_pt7_lb 3
  nlinarith [h]

lemma exp_21_ub : Real.exp 2.1 ≤ (8.17 : ℝ) := by
  rw [exp_21_eq_pow]
  have h := pow_le_pow_left₀ (Real.exp_nonneg 0.7) exp_pt7_ub 3
  nlinarith [h]

lemma logistic_between :
    (0.8899 : ℝ) < 1 / (1 + Real.exp (-2.1)) ∧
      1 / (1 + Real.exp (-2.1)) < (0.8919 : ℝ) := by
  have hE : (0:ℝ) < Real.exp 2.1 := Real.exp_pos _
  have hinv : Real.exp (-2.1) = (Real.exp 2.1)⁻¹ := by
    rw [← Real.exp_neg]
  have hrw : 1 / (1 + Real.exp (-2.1)) = Real.exp 2.1 / (Real.exp 2.1 + 1) := by
    rw [hinv]; field_simp
  have h1 := exp_21_lb
  have h2 := exp_21_ub
  have hpos : (0:ℝ) < Real.exp 2.1 + 1 := by linarith
  constructor
  · rw [hrw, lt_div_iff₀ hpos]; linarith
  · rw [hrw, div_lt_iff₀ hpos]; linarith

lemma fixture_score : predictScore fixtureInput = 7 := by
  norm_num [predictScore, fixtureInput]
  decide

lemma fixture_prob_eq :
    probability fixtureInput = 1 / (1 + Real.exp (-2.1)) := by
  unfold probability
  rw [fixture_score]
  norm_num

/-- C2. On the fixture `{pclass:1, sex:"female", age:29, sibsp:0, parch:0,
fare:211.34, embarked:"S"}` the prediction function returns score 7,
probability `1/(1+e^(-2.1))` (within 0.001 of 0.8909), and a positive
survival verdict. -/
theorem fixture_prediction :
    predictScore fixtureInput = 7 ∧
      probability fixtureInput = 1 / (1 + Real.exp (-2.1)) ∧
      |probability fixtureInput - 0.8909| < 0.001 ∧
      survived fixtureInput := by
  have h := logistic_between
  refine ⟨fixture_score, fixture_prob_eq, ?_, ?_⟩
  · rw [fixture_prob_eq, abs_lt]
    constructor <;> linarith [h.1, h.2]
  · unfold survived
    rw [fixture_prob_eq]
    linarith [h.1]

/-- C8. The scoring function is deterministic: two calls on identical input
records return identical score, probability and survival verdict. The source
function reads nothing but its argument and local variables, so it is
modelled as a pure function. -/
theorem predict_deterministic (p q : PassengerData) (h : p = q) :
    predictScore p = predictScore q ∧ probability p = probability q ∧
      (survived p ↔ survived q) := by
  subst h; exact ⟨rfl, rfl, Iff.rfl⟩

/-- Witness for `predict_deterministic` at the fixture input. -/
theorem predict_deterministic_witness :
    predictScore fixtureInput = predictScore fixtureInput ∧
      probability fixtureInput = probability fixtureInput ∧
      (survived fixtureInput ↔ survived fixtureInput) :=
  predict_deterministic fixtureInput fixtureInput rfl

lemma prob_gt_half_iff (p : PassengerData) :
    probability p > 0.5 ↔ 0 < predictScore p := by
  unfold probability
  have hE : (0:ℝ) < Real.exp (-(predictScore p : ℝ) * 0.3) := Real.exp_pos _
  rw [show (0.5:ℝ) = 1/2 by norm_num, gt_iff_lt,
    div_lt_div_iff₀ (by norm_num) (by linarith)]
  rw [show (1:ℝ) * (1 + Real.exp (-(predictScore p : ℝ) * 0.3)) =
    1 + Real.exp (-(predictScore p : ℝ) * 0.3) by ring,
    show (1:ℝ) * 2 = 2 by ring]
  constructor
  · intro hlt
    have hx : Real.exp (-(predictScore p : ℝ) * 0.3) < 1 := by linarith
    have := Real.exp_lt_one_iff.mp hx
    have hs : (0:ℝ) < (predictScore p : ℝ) := by nlinarith
    exact_mod_cast hs
  · intro hs
    have hs2 : (0:ℝ) < (predictScore p : ℝ) := by exact_mod_cast hs
    have hx : -(predictScore p : ℝ) * 0.3 < 0 := by nlinarith
    have := Real.exp_lt_one_iff.mpr hx
    linarith

/-- C9. For every scoring input the survival verdict holds exactly when the
integer score is strictly positive: the logistic transform exceeds 0.5 iff
score > 0, and a score of exactly 0 gives probability exactly 1/2 and a
negative verdict. -/
theorem survived_iff_score_pos (p : PassengerData) :
    (survived p ↔ 0 < predictScore p) ∧
      (probability p > 0.5 ↔ 0 < predictScore p) ∧
      (predictScore p = 0 → probability p = 1/2 ∧ ¬ survived p) := by
  refine ⟨prob_gt_half_iff p, prob_gt_half_iff p, fun h0 => ⟨?_, ?_⟩⟩
  · unfold probability
    rw [h0]
    norm_num
  · intro hs
    have := (prob_gt_half_iff p).mp hs
    omega

/-- Witness for `survived_iff_score_pos` at a zero-score input. -/
theorem survived_iff_score_pos_witness :
    predictScore zeroInput = 0 ∧ probability zeroInput = 1/2 ∧
      ¬ survived zeroInput := by
  have h0 : predictScore zeroInput = 0 := by
    norm_num [predictScore, zeroInput]
    decide
  exact ⟨h0, ((survived_iff_score_pos zeroInput).2.2 h0).1,
    ((survived_iff_score_pos zeroInput).2.2 h0).2⟩

/-- A request body for `POST /titanic/predict`: each of the seven fields is
`none` when the JSON field is absent or `null` (the two cases the source
checks with `=== undefined || === null`), and `some v` otherwise. -/
structure RequestBody where
  pclass : Option ℚ
  sex : Option String
  age : Option ℚ
  sibsp : Option ℚ
  parch : Option ℚ
  fare : Option ℚ
  embarked : Option String

/-- The `requiredFields` array of `prediction-server.js` line 86, in source
order. -/
def requiredFields : List String :=
  ["pclass", "sex", "age", "sibsp", "parch", "fare", "embarked"]

/-- Presence of a named field in the body (`passengerData[field]` being
neither `undefined` nor `null`). Names outside the seven are vacuously
present, matching the indexing semantics used by the validation loop. -/
def fieldPresent (b : RequestBody) : String → Bool
  | "pclass" => b.pclass.isSome
  | "sex" => b.sex.isSome
  | "age" => b.age.isSome
  | "sibsp" => b.sibsp.isSome
  | "parch" => b.parch.isSome
  | "fare" => b.fare.isSome
  | "embarked" => b.embarked.isSome
  | _ => true

/-- The scoring input read off a fully validated body. The defaults are
irrelevant: the endpoint only scores bodies in which every field is
present. -/
def toPassengerData (b : RequestBody) : PassengerData :=
  { pclass := b.pclass.getD 0, sex := b.sex.getD "", age := b.age.getD 0,
    sibsp := b.sibsp.getD 0, parch := b.parch.getD 0, fare := b.fare.getD 0,
    embarked := b.embarked.getD "" }

/-- Response of `POST /titanic/predict`: either the 400 error produced inside
the validation loop, or the 200 payload built from `predictSurvival`,
identified here by its integer score (probability and verdict are the
functions `probability` and `survived` of that score). -/
inductive PredictResponse where
  | badRequest (error : String)
  | ok (score : ℤ)
deriving DecidableEq

/-- The handler of `POST /titanic/predict` (`prediction-server.js` lines
81–106): walk `requiredFields` in order, return 400 naming the first field
that is absent or null, otherwise respond with the prediction. -/
def predictEndpoint (b : RequestBody) : PredictResponse :=
  match requiredFields.find? (fun f => ! fieldPresent b f) with
  | some f => .badRequest ("Campo requerido faltante: " ++ f)
  | none => .ok (predictScore (toPassengerData b))

lemma find?_of_first {α : Type} (p : α → Bool) :
    ∀ (l : List α) (i : ℕ) (hi : i < l.length),
      p (l.get ⟨i, hi⟩) = true →
      (∀ j (hj : j < i), p (l.get ⟨j, Nat.lt_trans hj hi⟩) = false) →
      l.find? p = some (l.get ⟨i, hi⟩)
  | a :: as, 0, _, hp, _ => by
    simpa using List.find?_cons_of_pos as hp
  | a :: as, i + 1, hi, hp, hfirst => by
    have ha : p a = false := hfirst 0 (Nat.succ_pos i)
    rw [List.find?_cons_of_neg as (by simp [ha])]
    exact find?_of_first p as i (Nat.lt_of_succ_lt_succ hi) hp
      (fun j hj => hfirst (j + 1) (Nat.succ_lt_succ hj))

/-- C3. For every request body: if some required field is absent or null,
the endpoint answers 400 with a message naming the first missing field in
the fixed check order pclass, sex, age, sibsp, parch, fare, embarked; if all
seven fields are present, it answers with the prediction for the body. -/
theorem predict_endpoint_validation :
    (∀ (b : RequestBody) (i : ℕ) (hi : i < requiredFields.length),
        fieldPresent b (requiredFields.get ⟨i, hi⟩) = false →
        (∀ j (hj : j < i),
          fieldPresent b (requiredFields.get ⟨j, Nat.lt_trans hj hi⟩) = true) →
        predictEndpoint b =
          .badRequest ("Campo requerido faltante: " ++ requiredFields.get ⟨i, hi⟩))
    ∧ (∀ b : RequestBody, (∀ f ∈ requiredFields, fieldPresent b f = true) →
        predictEndpoint b = .ok (predictScore (toPassengerData b))) := by
  constructor
  · intro b i hi hmiss hfirst
    unfold predictEndpoint
    rw [find?_of_first (fun f => ! fieldPresent b f) requiredFields i hi
      (by simp only [List.get_eq_getElem] at hmiss ⊢; simp [hmiss])
      (fun j hj => by
        have h := hfirst j hj
        simp only [List.get_eq_getElem] at h ⊢
        simp [h])]
  · intro b hall
    unfold predictEndpoint
    rw [List.find?_eq_none.mpr (fun f hf => by simp [hall f hf])]

/-- Witness for `predict_endpoint_validation`: a body missing only `sibsp`
is rejected naming `sibsp`; a complete body gets a prediction. -/
theorem predict_endpoint_validation_witness :
    predictEndpoint
        { pclass := some 1, sex := some "male", age := some 30,
          sibsp := none, parch := some 0, fare := some 20,
          embarked := some "S" } =
      .badRequest "Campo requerido faltante: sibsp" ∧
    predictEndpoint
        { pclass := some 1, sex := some "male", age := some 30,
          sibsp := some 0, parch := some 0, fare := some 20,
          embarked := some "S" } =
      .ok (predictScore (toPassengerData
        { pclass := some 1, sex := some "male", age := some 30,
          sibsp := some 0, parch := some 0, fare := some 20,
          embarked := some "S" })) := by
  constructor
  · exact predict_endpoint_validation.1 _ 3 (by decide) (by decide) (by decide)
  · exact predict_endpoint_validation.2 _ (by decide)

/-- A record of the passenger dataset, with the fields the router reads
(`PassengerId`, `Pclass`, `Survived`, `Name`, `Sex`); further JSON fields are
passed through untouched and play no role in any handler. -/
structure Passenger where
  PassengerId : ℤ
  Pclass : ℤ
  Survived : ℤ
  Name : String
  Sex : String
deriving DecidableEq

/-- JavaScript `String.prototype.includes`: substring containment, modelled
on the character lists. -/
def jsIncludes (s sub : String) : Bool :=
  decide (sub.data <:+: s.data)

/-- Handler of `GET /:id` (`passengers.js` lines 40–54): first record whose
`PassengerId` equals the parsed integer parameter; `none` is the 404 case. -/
def getPassengerById (xs : List Passenger) (id : ℤ) : Option Passenger :=
  xs.find? (fun p => p.PassengerId == id)

/-- Handler of `GET /class/:class` (`passengers.js` lines 57–72): equality
filter on `Pclass`. -/
def filterByClass (xs : List Passenger) (c : ℤ) : List Passenger :=
  xs.filter (fun p => p.Pclass == c)

/-- Handler of `GET /survived/:status` (`passengers.js` lines 75–90):
equality filter on `Survived`. -/
def filterBySurvived (xs : List Passenger) (s : ℤ) : List Passenger :=
  xs.filter (fun p => p.Survived == s)

/-- Handler of `GET /search/:name` (`passengers.js` lines 93–108):
case-insensitive name-substring filter (both the parameter and each `Name`
are lowercased). -/
def searchByName (xs : List Passenger) (name : String) : List Passenger :=
  let searchTerm := name.toLower
  xs.filter (fun p => jsIncludes p.Name.toLower searchTerm)

/-- The summary computed by `GET /stats/summary` (`passengers.js` lines
111–134): total, survivors, and counts partitioned by class and by sex. -/
structure StatsSummary where
  totalPassengers : ℕ
  survivedCount : ℕ
  byClass1 : ℕ
  byClass2 : ℕ
  byClass3 : ℕ
  byGenderMale : ℕ
  byGenderFemale : ℕ
deriving DecidableEq

/-- Handler of `GET /stats/summary`: each count is a fresh linear filter
pass, as in the source. -/
def statsSummary (xs : List Passenger) : StatsSummary :=
  { totalPassengers := xs.length
    survivedCount := (xs.filter (fun p => p.Survived == 1)).length
    byClass1 := (xs.filter (fun p => p.Pclass == 1)).length
    byClass2 := (xs.filter (fun p => p.Pclass == 2)).length
    byClass3 := (xs.filter (fun p => p.Pclass == 3)).length
    byGenderMale := (xs.filter (fun p => p.Sex == "male")).length
    byGenderFemale := (xs.filter (fun p => p.Sex == "female")).length }

lemma find?_first_characterization (xs : List Passenger) (id : ℤ) (r : Passenger)
    (h : getPassengerById xs id = some r) :
    r.PassengerId = id ∧
      ∃ pre post, xs = pre ++ r :: post ∧ ∀ q ∈ pre, q.PassengerId ≠ id := by
  induction xs with
  | nil => simp [getPassengerById] at h
  | cons a as ih =>
    by_cases ha : a.PassengerId = id
    · rw [getPassengerById, List.find?_cons_of_pos as (by simp [ha])] at h
      obtain rfl : a = r := by simpa using h
      exact ⟨ha, [], as, rfl, by simp⟩
    · rw [getPassengerById, List.find?_cons_of_neg as (by simp [ha])] at h
      obtain ⟨hid, pre, post, hsplit, hpre⟩ := ih h
      exact ⟨hid, a :: pre, post, by simp [hsplit], by
        intro q hq
        rcases List.mem_cons.mp hq with rfl | hq
        · exact ha
        · exact hpre q hq⟩

/-- C5. For every passenger list and id: a successful lookup returns the
first record with that `PassengerId` (nothing before it matches); the
404 case happens exactly when no record matches; and every id present in
the list is retrievable. -/
theorem lookup_by_id_spec (xs : List Passenger) (id : ℤ) :
    (∀ r, getPassengerById xs id = some r →
        r.PassengerId = id ∧
          ∃ pre post, xs = pre ++ r :: post ∧ ∀ q ∈ pre, q.PassengerId ≠ id)
    ∧ (getPassengerById xs id = none ↔ ∀ r ∈ xs, r.PassengerId ≠ id)
    ∧ (∀ r ∈ xs, r.PassengerId = id →
        ∃ r2, getPassengerById xs id = some r2 ∧ r2.PassengerId = id) := by
  refine ⟨fun r h => find?_first_characterization xs id r h, ?_, ?_⟩
  · rw [getPassengerById, List.find?_eq_none]
    constructor
    · intro h r hr
      have := h r hr
      simpa using this
    · intro h r hr
      simp [h r hr]
  · intro r hr hid
    rcases hfind : getPassengerById xs id with _ | r2
    · rw [getPassengerById, List.find?_eq_none] at hfind
      exact absurd (by simp [hid] : (r.PassengerId == id) = true)
        (by simpa using hfind r hr)
    · exact ⟨r2, rfl, by
        have := List.find?_some hfind
        simpa using this⟩

/-- Witness for `lookup_by_id_spec`: in a two-record list, id 2 is found
with the right record and id 7 is a 404. -/
theorem lookup_by_id_spec_witness :
    (∃ r2, getPassengerById
        [{ PassengerId := 1, Pclass := 1, Survived := 0, Name := "A", Sex := "male" },
         { PassengerId := 2, Pclass := 3, Survived := 1, Name := "B", Sex := "female" }] 2 =
      some r2 ∧ r2.PassengerId = 2) ∧
    getPassengerById
        [{ PassengerId := 1, Pclass := 1, Survived := 0, Name := "A", Sex := "male" },
         { PassengerId := 2, Pclass := 3, Survived := 1, Name := "B", Sex := "female" }] 7 =
      none := by
  constructor
  · exact (lookup_by_id_spec _ 2).2.2
      { PassengerId := 2, Pclass := 3, Survived := 1, Name := "B", Sex := "female" }
      (by simp) rfl
  · exact (lookup_by_id_spec _ 7).2.1.mpr (by decide)

/-- C6. Each of the three filters (by class, by survival flag, by lowercased
name substring) returns a sublist of the passenger list — the original
relative order is preserved and only non-matching records are removed
(membership in the output is membership in the input plus the match
condition) — and each filter is idempotent: applied to its own output it
returns it unchanged. -/
theorem filters_sublist_idempotent (xs : List Passenger) (c s : ℤ)
    (name : String) :
    (List.Sublist (filterByClass xs c) xs ∧
      (∀ r, r ∈ filterByClass xs c ↔ r ∈ xs ∧ r.Pclass = c) ∧
      filterByClass (filterByClass xs c) c = filterByClass xs c)
    ∧ (List.Sublist (filterBySurvived xs s) xs ∧
      (∀ r, r ∈ filterBySurvived xs s ↔ r ∈ xs ∧ r.Survived = s) ∧
      filterBySurvived (filterBySurvived xs s) s = filterBySurvived xs s)
    ∧ (List.Sublist (searchByName xs name) xs ∧
      (∀ r, r ∈ searchByName xs name ↔
        r ∈ xs ∧ jsIncludes r.Name.toLower name.toLower = true) ∧
      searchByName (searchByName xs name) name = searchByName xs name) := by
  refine ⟨⟨List.filter_sublist xs, fun r => ?_, ?_⟩,
    ⟨List.filter_sublist xs, fun r => ?_, ?_⟩,
    ⟨List.filter_sublist xs, fun r => ?_, ?_⟩⟩
  · simp [filterByClass]
  · simp [filterByClass, List.filter_filter]
  · simp [filterBySurvived]
  · simp [filterBySurvived, List.filter_filter]
  · simp [searchByName]
  · simp [searchByName, List.filter_filter]

/-- Witness for `filters_sublist_idempotent` on a concrete two-record
list. -/
theorem filters_sublist_idempotent_witness :
    { PassengerId := 1, Pclass := 1, Survived := 0, Name := "Abe", Sex := "male" } ∈
      filterByClass
        [{ PassengerId := 1, Pclass := 1, Survived := 0, Name := "Abe", Sex := "male" },
         { PassengerId := 2, Pclass := 3, Survived := 1, Name := "Bea", Sex := "female" }] 1 :=
  ((filters_sublist_idempotent _ 1 0 "x").1.2.1 _).mpr ⟨by simp, by decide⟩

lemma stats_class_partition (xs : List Passenger)
    (hc : ∀ p ∈ xs, p.Pclass = 1 ∨ p.Pclass = 2 ∨ p.Pclass = 3) :
    (statsSummary xs).byClass1 + (statsSummary xs).byClass2 +
        (statsSummary xs).byClass3 = (statsSummary xs).totalPassengers := by
  induction xs with
  | nil => simp [statsSummary]
  | cons a as ih =>
    have hin := ih (fun p hp => hc p (List.mem_cons_of_mem a hp))
    rcases hc a (List.mem_cons_self a as) with h | h | h <;>
      simp [statsSummary, List.filter_cons, h] at hin ⊢ <;> omega

lemma stats_sex_partition (xs : List Passenger)
    (hs : ∀ p ∈ xs, p.Sex = "male" ∨ p.Sex = "female") :
    (statsSummary xs).byGenderMale + (statsSummary xs).byGenderFemale =
      (statsSummary xs).totalPassengers := by
  induction xs with
  | nil => simp [statsSummary]
  | cons a as ih =>
    have hin := ih (fun p hp => hs p (List.mem_cons_of_mem a hp))
    rcases hs a (List.mem_cons_self a as) with h | h <;>
      simp [statsSummary, List.filter_cons, h] at hin ⊢ <;> omega

/-- C7. For every passenger list whose records all have class 1, 2 or 3 and
sex male or female, the statistics endpoint's per-class counts sum to the
total passenger count, and so do its per-sex counts. -/
theorem stats_counts_partition (xs : List Passenger)
    (hc : ∀ p ∈ xs, p.Pclass = 1 ∨ p.Pclass = 2 ∨ p.Pclass = 3)
    (hs : ∀ p ∈ xs, p.Sex = "male" ∨ p.Sex = "female") :
    (statsSummary xs).byClass1 + (statsSummary xs).byClass2 +
        (statsSummary xs).byClass3 = (statsSummary xs).totalPassengers
    ∧ (statsSummary xs).byGenderMale + (statsSummary xs).byGenderFemale =
        (statsSummary xs).totalPassengers :=
  ⟨stats_class_partition xs hc, stats_sex_partition xs hs⟩

/-- Witness for `stats_counts_partition` on a concrete two-record list. -/
theorem stats_counts_partition_witness :
    (statsSummary
          [{ PassengerId := 1, Pclass := 1, Survived := 1, Name := "A", Sex := "male" },
           { PassengerId := 2, Pclass := 3, Survived := 0, Name := "B", Sex := "female" }]).byClass1 +
        (statsSummary
          [{ PassengerId := 1, Pclass := 1, Survived := 1, Name := "A", Sex := "male" },
           { PassengerId := 2, Pclass := 3, Survived := 0, Name := "B", Sex := "female" }]).byClass2 +
        (statsSummary
          [{ PassengerId := 1, Pclass := 1, Survived := 1, Name := "A", Sex := "male" },
           { PassengerId := 2, Pclass := 3, Survived := 0, Name := "B", Sex := "female" }]).byClass3 =
      (statsSummary
          [{ PassengerId := 1, Pclass := 1, Survived := 1, Name := "A", Sex := "male" },
           { PassengerId := 2, Pclass := 3, Survived := 0, Name := "B", Sex := "female" }]).totalPassengers :=
  (stats_counts_partition _ (by decide) (by decide)).1

/-- ECMAScript `Array.prototype.slice(start, end)` for integer arguments:
negative indices count from the end of the array, indices are clamped to
`[0, length]`, and the extraction count is never negative. -/
def jsSlice {α : Type} (xs : List α) (start stop : ℤ) : List α :=
  let len : ℤ := xs.length
  let k := if start < 0 then max (len + start) 0 else min start len
  let fin := if stop < 0 then max (len + stop) 0 else min stop len
  (xs.drop k.toNat).take (fin - k).toNat

/-- Response of `GET /` (`passengers.js` lines 20–37): total count, echoed
page and limit, and the sliced data. -/
structure ListResponse where
  total : ℕ
  page : ℤ
  limit : ℤ
  data : List Passenger
deriving DecidableEq

/-- Handler of `GET /`: `page` and `limit` default to 1 and 20 when absent,
`startIndex = (page−1)·limit`, `endIndex = page·limit`, and the data is
`passengers.slice(startIndex, endIndex)`. Query values are modelled as the
integers they denote; JavaScript coerces the numeric strings to exactly
these numbers in the arithmetic, and `parseInt` echoes them. -/
def getPassengersHandler (xs : List Passenger) (page limit : Option ℤ) :
    ListResponse :=
  let p := page.getD 1
  let l := limit.getD 20
  let startIndex := (p - 1) * l
  let endIndex := p * l
  { total := xs.length, page := p, limit := l,
    data := jsSlice xs startIndex endIndex }

/-- The claim-side contiguous slice `[a, b)` of a list in its original
order, restricted to the list's valid indices. -/
def sliceSpec {α : Type} (xs : List α) (a b : ℤ) : List α :=
  (xs.take b.toNat).drop a.toNat

lemma sliceSpec_eq {α : Type} (xs : List α) (a b : ℤ) :
    sliceSpec xs a b = (xs.drop a.toNat).take (b.toNat - a.toNat) := by
  simp only [sliceSpec]
  rw [List.drop_take]

lemma jsSlice_of_nonneg {α : Type} (xs : List α) (a b : ℤ)
    (ha : 0 ≤ a) (hb : 0 ≤ b) :
    jsSlice xs a b = (xs.drop a.toNat).take (b.toNat - a.toNat) := by
  simp only [jsSlice]
  rw [if_neg (by omega), if_neg (by omega)]
  rcases le_or_lt a (xs.length : ℤ) with h | h
  · rw [min_eq_left h]
    rw [List.take_eq_take]
    simp only [List.length_drop]
    omega
  · rw [min_eq_right h.le]
    have h1 : ((xs.length : ℤ)).toNat = xs.length := Int.toNat_natCast _
    rw [h1, List.drop_length]
    have h2 : xs.drop a.toNat = [] := List.drop_eq_nil_of_le (by omega)
    rw [h2]
    simp

lemma jsSlice_stop_zero {α : Type} (xs : List α) (a : ℤ) :
    jsSlice xs a 0 = [] := by
  simp only [jsSlice]
  have hk : 0 ≤ if a < 0 then max ((xs.length : ℤ) + a) 0
      else min a (xs.length : ℤ) := by
    split_ifs with h <;> omega
  have hfin : (if (0:ℤ) < 0 then max ((xs.length : ℤ) + 0) 0
      else min 0 (xs.length : ℤ)) = 0 := by
    rw [if_neg (by omega)]
    omega
  rw [hfin]
  have hz : ((0 : ℤ) - if a < 0 then max ((xs.length : ℤ) + a) 0
      else min a (xs.length : ℤ)).toNat = 0 := by omega
  rw [hz]
  simp

/-- C4 (amended). For every page `p ≥ 0` and limit `l ≥ 0` supplied to the
passenger list endpoint (defaults 1 and 20 when absent), the returned data
is the contiguous slice `[(p−1)·l, p·l)` of the passenger list in its
original order, with length at most `l`, together with the total count and
the echoed page and limit; an out-of-range page yields an empty slice
rather than an error. (Negative pages and limits are excluded: there
JavaScript `slice` counts from the end of the array — see the
counterexample.) -/
theorem list_pagination_slice (xs : List Passenger) (page limit : Option ℤ)
    (hp : 0 ≤ page.getD 1) (hl : 0 ≤ limit.getD 20) :
    (getPassengersHandler xs page limit).data =
      sliceSpec xs ((page.getD 1 - 1) * limit.getD 20)
        (page.getD 1 * limit.getD 20)
    ∧ ((getPassengersHandler xs page limit).data.length : ℤ) ≤ limit.getD 20
    ∧ (getPassengersHandler xs page limit).total = xs.length
    ∧ (getPassengersHandler xs page limit).page = page.getD 1
    ∧ (getPassengersHandler xs page limit).limit = limit.getD 20
    ∧ ((xs.length : ℤ) ≤ (page.getD 1 - 1) * limit.getD 20 →
        (getPassengersHandler xs page limit).data = []) := by
  have hdata : (getPassengersHandler xs page limit).data =
      jsSlice xs ((page.getD 1 - 1) * limit.getD 20)
        (page.getD 1 * limit.getD 20) := rfl
  have hBA : page.getD 1 * limit.getD 20 =
      (page.getD 1 - 1) * limit.getD 20 + limit.getD 20 := by ring
  rcases (show page.getD 1 = 0 ∨ 1 ≤ page.getD 1 by omega) with h0 | h1
  · have hstop : page.getD 1 * limit.getD 20 = 0 := by rw [h0]; ring
    have hempty : (getPassengersHandler xs page limit).data = [] := by
      rw [hdata, hstop]
      exact jsSlice_stop_zero xs _
    have hspec : sliceSpec xs ((page.getD 1 - 1) * limit.getD 20)
        (page.getD 1 * limit.getD 20) = [] := by
      rw [hstop]
      simp [sliceSpec]
    refine ⟨hempty.trans hspec.symm, ?_, rfl, rfl, rfl, fun _ => hempty⟩
    rw [hempty]
    simpa using hl
  · have ha : 0 ≤ (page.getD 1 - 1) * limit.getD 20 :=
      mul_nonneg (by omega) hl
    have hb : 0 ≤ page.getD 1 * limit.getD 20 :=
      mul_nonneg (by omega) hl
    have hmain : (getPassengersHandler xs page limit).data =
        sliceSpec xs ((page.getD 1 - 1) * limit.getD 20)
          (page.getD 1 * limit.getD 20) := by
      rw [hdata, jsSlice_of_nonneg xs _ _ ha hb, sliceSpec_eq]
    refine ⟨hmain, ?_, rfl, rfl, rfl, fun hoor => ?_⟩
    · rw [hmain, sliceSpec_eq]
      have hlen := List.length_take_le
        ((page.getD 1 * limit.getD 20).toNat -
          ((page.getD 1 - 1) * limit.getD 20).toNat)
        (xs.drop ((page.getD 1 - 1) * limit.getD 20).toNat)
      omega
    · rw [hmain, sliceSpec_eq]
      have hnil : xs.drop ((page.getD 1 - 1) * limit.getD 20).toNat = [] :=
        List.drop_eq_nil_of_le (by omega)
      rw [hnil]
      simp

/-- Witness for `list_pagination_slice`: page 2, limit 1 on a three-record
list returns exactly the second record. -/
theorem list_pagination_slice_witness :
    (getPassengersHandler
        [{ PassengerId := 1, Pclass := 1, Survived := 0, Name := "A", Sex := "male" },
         { PassengerId := 2, Pclass := 2, Survived := 1, Name := "B", Sex := "female" },
         { PassengerId := 3, Pclass := 3, Survived := 0, Name := "C", Sex := "male" }]
        (some 2) (some 1)).data =
      sliceSpec
        ([{ PassengerId := 1, Pclass := 1, Survived := 0, Name := "A", Sex := "male" },
          { PassengerId := 2, Pclass := 2, Survived := 1, Name := "B", Sex := "female" },
          { PassengerId := 3, Pclass := 3, Survived := 0, Name := "C", Sex := "male" }] :
          List Passenger)
        ((2 - 1) * 1) (2 * 1) ∧
    ((getPassengersHandler
        [{ PassengerId := 1, Pclass := 1, Survived := 0, Name := "A", Sex := "male" },
         { PassengerId := 2, Pclass := 2, Survived := 1, Name := "B", Sex := "female" },
         { PassengerId := 3, Pclass := 3, Survived := 0, Name := "C", Sex := "male" }]
        (some 2) (some 1)).data.length : ℤ) ≤ 1 := by
  have h := list_pagination_slice
    ([{ PassengerId := 1, Pclass := 1, Survived := 0, Name := "A", Sex := "male" },
      { PassengerId := 2, Pclass := 2, Survived := 1, Name := "B", Sex := "female" },
      { PassengerId := 3, Pclass := 3, Survived := 0, Name := "C", Sex := "male" }] :
      List Passenger)
    (some 2) (some 1) (by decide) (by decide)
  exact ⟨h.1, h.2.1⟩

/-- C4 counterexample. On a two-record list, page −1 with limit 1 makes the
handler return the first record — a non-empty window taken from the end of
the array by JavaScript `slice` — although the claimed contiguous slice
`[(p−1)·l, p·l) = [−2, −1)` contains no valid index at all (and a negative
page is out of range, so the claim also promises an empty slice there);
with page 1 and limit −1 the returned data is longer than the limit. -/
theorem list_pagination_counterexample :
    ((getPassengersHandler
        [{ PassengerId := 1, Pclass := 1, Survived := 0, Name := "A", Sex := "male" },
         { PassengerId := 2, Pclass := 2, Survived := 1, Name := "B", Sex := "female" }]
        (some (-1)) (some 1)).data =
      [{ PassengerId := 1, Pclass := 1, Survived := 0, Name := "A", Sex := "male" }]
    ∧ (getPassengersHandler
        [{ PassengerId := 1, Pclass := 1, Survived := 0, Name := "A", Sex := "male" },
         { PassengerId := 2, Pclass := 2, Survived := 1, Name := "B", Sex := "female" }]
        (some (-1)) (some 1)).data ≠ []
    ∧ sliceSpec
        ([{ PassengerId := 1, Pclass := 1, Survived := 0, Name := "A", Sex := "male" },
          { PassengerId := 2, Pclass := 2, Survived := 1, Name := "B", Sex := "female" }] :
          List Passenger)
        ((-1 - 1) * 1) ((-1) * 1) = [])
    ∧ ¬ (((getPassengersHandler
        [{ PassengerId := 1, Pclass := 1, Survived := 0, Name := "A", Sex := "male" },
         { PassengerId := 2, Pclass := 2, Survived := 1, Name := "B", Sex := "female" }]
        (some 1) (some (-1))).data.length : ℤ) ≤ -1) := by
  decide

end Titanic
